import Mathlib

/-!
# Verification of the ArangoDB telegraf input plugin

A shallow embedding of `plugins/inputs/arangodb/arangodb.go`.

Modelling conventions:
* JSON documents are the inductive `Json` below; an HTTP body is an
  `Option Json` (`none` stands for bytes that are not valid JSON).
* Go's `encoding/json.Unmarshal` into the plugin's struct types is embedded
  by the `decode*` functions: unknown object keys are ignored, a missing key
  leaves the zero value, JSON `null` leaves the field untouched, a later
  duplicate key overwrites an earlier one, and a type mismatch is an error.
* Machine integers `uint32`/`uint64` are `Nat` with explicit range checks in
  the decoder; `float32` values are modelled as exact rationals (`Rat`) —
  no claim depends on rounding.
* Go maps built with string keys and distinct literal keys are modelled as
  association lists in insertion order.
* The HTTP client is a function from requests to either a transport error
  (the non-nil `err` of `client.Do`) or a response; reading the response
  body (`ioutil.ReadAll`) may itself fail, hence the `Except` in the
  response's `read` field.
* A Go runtime panic (nil-pointer dereference, index out of range) is the
  explicit `panic` outcome of the result types; once a goroutine panics the
  whole process dies, which the cycle model reflects with `panicked`.
* The concurrent fan-out of `Gather` (goroutines joined by a `WaitGroup`)
  is modelled as a sequential fold over the endpoint list: every claim we
  settle is insensitive to the interleaving, and the fold is one admissible
  linearization of the concurrent run.
-/

/-- A parsed JSON document. -/
inductive Json where
  | null
  | bool (b : Bool)
  | num (q : Rat)
  | str (s : String)
  | arr (elems : List Json)
  | obj (members : List (String × Json))
deriving Repr

/-- An HTTP body after the JSON parse: `none` means the bytes were not valid
JSON (Go's `json.Unmarshal` then reports a syntax error). -/
def JsonBody : Type := Option Json

/-- `type LoginRequest struct { Username, Password string }`. -/
structure LoginRequest where
  username : String
  password : String
deriving DecidableEq, Repr

/-- `type LoginResponse struct { Jwt string }` (json key `jwt`). -/
structure LoginResponse where
  jwt : String
deriving DecidableEq, Repr

/-- `type ArangoSystem struct` — the `system` section of the payload. -/
structure ArangoSystem where
  majorPageFaults : Nat
  minorPageFaults : Nat
  numberOfThreads : Nat
  residentSize : Rat
  systemTime : Rat
  userTime : Rat
  virtualSize : Nat
deriving DecidableEq, Repr

/-- `type ArangoRequestTime struct` — note that the Go field `Count` carries
the json key `requestTime`. -/
structure ArangoRequestTime where
  count : Nat
  counts : List Nat
  sum : Rat
deriving DecidableEq, Repr

/-- `type ArangoClient struct { RequestTime ArangoRequestTime }`. -/
structure ArangoClient where
  requestTime : ArangoRequestTime
deriving DecidableEq, Repr

/-- `type ArangoServer struct { PhysicalMemory uint64; Uptime float32 }`. -/
structure ArangoServer where
  physicalMemory : Nat
  uptime : Rat
deriving DecidableEq, Repr

/-- `type ArangoStats struct { Client; Server; System }`. -/
structure ArangoStats where
  client : ArangoClient
  server : ArangoServer
  system : ArangoSystem
deriving DecidableEq, Repr

/-- Go zero value of `ArangoSystem`. -/
def zeroSystem : ArangoSystem := ⟨0, 0, 0, 0, 0, 0, 0⟩

/-- Go zero value of `ArangoRequestTime` (`Counts` is the nil slice). -/
def zeroRequestTime : ArangoRequestTime := ⟨0, [], 0⟩

/-- Go zero value of `ArangoStats`. -/
def zeroStats : ArangoStats := ⟨⟨zeroRequestTime⟩, ⟨0, 0⟩, zeroSystem⟩

/-- Decode a JSON value into a Go `uint32` field holding `old`:
`null` leaves the field untouched, an integral number in range is taken,
anything else is an unmarshal error. -/
def decodeU32 (v : Json) (old : Nat) : Except String Nat :=
  match v with
  | .null => .ok old
  | .num q =>
      if q.den = 1 ∧ 0 ≤ q.num ∧ q.num < 4294967296 then .ok q.num.toNat
      else .error "json: cannot unmarshal number into Go value of type uint32"
  | _ => .error "json: cannot unmarshal value into Go value of type uint32"

/-- Decode a JSON value into a Go `uint64` field. -/
def decodeU64 (v : Json) (old : Nat) : Except String Nat :=
  match v with
  | .null => .ok old
  | .num q =>
      if q.den = 1 ∧ 0 ≤ q.num ∧ q.num < 18446744073709551616 then .ok q.num.toNat
      else .error "json: cannot unmarshal number into Go value of type uint64"
  | _ => .error "json: cannot unmarshal value into Go value of type uint64"

/-- Decode a JSON value into a Go `float32` field (modelled exactly). -/
def decodeF32 (v : Json) (old : Rat) : Except String Rat :=
  match v with
  | .null => .ok old
  | .num q => .ok q
  | _ => .error "json: cannot unmarshal value into Go value of type float32"

/-- Decode a JSON value into a Go `string` field. -/
def decodeStr (v : Json) (old : String) : Except String String :=
  match v with
  | .null => .ok old
  | .str s => .ok s
  | _ => .error "json: cannot unmarshal value into Go value of type string"

/-- Decode the elements of a JSON array into a `[]uint32` slice. -/
def decodeU32Elems : List Json → Except String (List Nat)
  | [] => .ok []
  | v :: rest => do
      let n ← decodeU32 v 0
      let ns ← decodeU32Elems rest
      .ok (n :: ns)

/-- Decode a JSON value into a Go `[]uint32` field. -/
def decodeU32List (v : Json) (old : List Nat) : Except String (List Nat) :=
  match v with
  | .null => .ok old
  | .arr elems => decodeU32Elems elems
  | _ => .error "json: cannot unmarshal value into Go value of type []uint32"

/-- One member of a JSON object applied to a `LoginResponse` under decode:
only the key `jwt` is significant. -/
def setLoginField (r : LoginResponse) (k : String) (v : Json) :
    Except String LoginResponse :=
  if k = "jwt" then do .ok ⟨← decodeStr v r.jwt⟩ else .ok r

def decodeLoginMembers : List (String × Json) → LoginResponse →
    Except String LoginResponse
  | [], r => .ok r
  | (k, v) :: rest, r => do decodeLoginMembers rest (← setLoginField r k v)

/-- `json.Unmarshal` of a parsed document into `LoginResponse`. -/
def decodeLoginJson (j : Json) : Except String LoginResponse :=
  match j with
  | .null => .ok ⟨""⟩
  | .obj members => decodeLoginMembers members ⟨""⟩
  | _ => .error "json: cannot unmarshal value into Go value of type LoginResponse"

/-- `json.Unmarshal(body, &jwtToken)`: a body that is not valid JSON is a
syntax error. -/
def unmarshalLogin (b : JsonBody) : Except String LoginResponse :=
  match b with
  | none => .error "invalid character in JSON input"
  | some j => decodeLoginJson j

def setSystemField (s : ArangoSystem) (k : String) (v : Json) :
    Except String ArangoSystem :=
  if k = "majorPageFaults" then do
    .ok { s with majorPageFaults := ← decodeU32 v s.majorPageFaults }
  else if k = "minorPageFaults" then do
    .ok { s with minorPageFaults := ← decodeU32 v s.minorPageFaults }
  else if k = "numberOfThreads" then do
    .ok { s with numberOfThreads := ← decodeU32 v s.numberOfThreads }
  else if k = "residentSize" then do
    .ok { s with residentSize := ← decodeF32 v s.residentSize }
  else if k = "systemTime" then do
    .ok { s with systemTime := ← decodeF32 v s.systemTime }
  else if k = "userTime" then do
    .ok { s with userTime := ← decodeF32 v s.userTime }
  else if k = "virtualSize" then do
    .ok { s with virtualSize := ← decodeU64 v s.virtualSize }
  else .ok s

def decodeSystemMembers : List (String × Json) → ArangoSystem →
    Except String ArangoSystem
  | [], s => .ok s
  | (k, v) :: rest, s => do decodeSystemMembers rest (← setSystemField s k v)

/-- Decode the `system` section. -/
def decodeSystem (v : Json) (old : ArangoSystem) : Except String ArangoSystem :=
  match v with
  | .null => .ok old
  | .obj members => decodeSystemMembers members old
  | _ => .error "json: cannot unmarshal value into Go value of type ArangoSystem"

def setServerField (s : ArangoServer) (k : String) (v : Json) :
    Except String ArangoServer :=
  if k = "physicalMemory" then do
    .ok { s with physicalMemory := ← decodeU64 v s.physicalMemory }
  else if k = "uptime" then do
    .ok { s with uptime := ← decodeF32 v s.uptime }
  else .ok s

def decodeServerMembers : List (String × Json) → ArangoServer →
    Except String ArangoServer
  | [], s => .ok s
  | (k, v) :: rest, s => do decodeServerMembers rest (← setServerField s k v)

/-- Decode the `server` section. -/
def decodeServer (v : Json) (old : ArangoServer) : Except String ArangoServer :=
  match v with
  | .null => .ok old
  | .obj members => decodeServerMembers members old
  | _ => .error "json: cannot unmarshal value into Go value of type ArangoServer"

def setRequestTimeField (r : ArangoRequestTime) (k : String) (v : Json) :
    Except String ArangoRequestTime :=
  if k = "requestTime" then do
    .ok { r with count := ← decodeU32 v r.count }
  else if k = "counts" then do
    .ok { r with counts := ← decodeU32List v r.counts }
  else if k = "sum" then do
    .ok { r with sum := ← decodeF32 v r.sum }
  else .ok r

def decodeRequestTimeMembers : List (String × Json) → ArangoRequestTime →
    Except String ArangoRequestTime
  | [], r => .ok r
  | (k, v) :: rest, r => do decodeRequestTimeMembers rest (← setRequestTimeField r k v)

/-- Decode the `client.requestTime` section. -/
def decodeRequestTime (v : Json) (old : ArangoRequestTime) :
    Except String ArangoRequestTime :=
  match v with
  | .null => .ok old
  | .obj members => decodeRequestTimeMembers members old
  | _ => .error "json: cannot unmarshal value into Go value of type ArangoRequestTime"

def setClientField (c : ArangoClient) (k : String) (v : Json) :
    Except String ArangoClient :=
  if k = "requestTime" then do
    .ok ⟨← decodeRequestTime v c.requestTime⟩
  else .ok c

def decodeClientMembers : List (String × Json) → ArangoClient →
    Except String ArangoClient
  | [], c => .ok c
  | (k, v) :: rest, c => do decodeClientMembers rest (← setClientField c k v)

/-- Decode the `client` section. -/
def decodeClient (v : Json) (old : ArangoClient) : Except String ArangoClient :=
  match v with
  | .null => .ok old
  | .obj members => decodeClientMembers members old
  | _ => .error "json: cannot unmarshal value into Go value of type ArangoClient"

def setStatsField (s : ArangoStats) (k : String) (v : Json) :
    Except String ArangoStats :=
  if k = "client" then do
    .ok { s with client := ← decodeClient v s.client }
  else if k = "server" then do
    .ok { s with server := ← decodeServer v s.server }
  else if k = "system" then do
    .ok { s with system := ← decodeSystem v s.system }
  else .ok s

def decodeStatsMembers : List (String × Json) → ArangoStats →
    Except String ArangoStats
  | [], s => .ok s
  | (k, v) :: rest, s => do decodeStatsMembers rest (← setStatsField s k v)

/-- `json.Unmarshal` of a parsed document into `ArangoStats`. -/
def decodeStatsJson (j : Json) : Except String ArangoStats :=
  match j with
  | .null => .ok zeroStats
  | .obj members => decodeStatsMembers members zeroStats
  | _ => .error "json: cannot unmarshal value into Go value of type ArangoStats"

/-- `json.Unmarshal(body, &stats)`. -/
def unmarshalStats (b : JsonBody) : Except String ArangoStats :=
  match b with
  | none => .error "invalid character in JSON input"
  | some j => decodeStatsJson j

/-! ## The HTTP layer -/

/-- An outgoing HTTP request as the plugin builds it with `http.NewRequest`
and `Header.Set`. -/
structure HttpRequest where
  method : String
  url : String
  headers : List (String × String)
  body : Option Json
deriving Repr

/-- An HTTP response as far as the plugin observes it: the status code
(which the plugin never inspects) and the outcome of reading the body in
full with `ioutil.ReadAll`. -/
structure HttpResponse where
  status : Nat
  read : Except String JsonBody

/-- An HTTP client: `client.Do` either fails with a transport error
(connection refused, timeout, DNS failure, ...) or yields a response. -/
def HttpClient : Type := HttpRequest → Except String HttpResponse

/-- `const loginPostfix = "/_open/auth"`. -/
def loginPath : String := "/_open/auth"

/-- `const statsPostfix = "/_admin/statistics"`. -/
def statsPath : String := "/_admin/statistics"

/-- The plugin's configuration (`type ArangoDB struct`); the timeout only
parameterizes the HTTP client, which is external, so it is not carried. -/
structure ArangoDB where
  urls : List String
  username : String
  password : String

/-- The login request of `gatherURL`: POST to `u.String() + loginPostfix`
with the marshalled `LoginRequest` as body (`json.Marshal` of this struct
never fails). -/
def loginRequest (p : ArangoDB) (u : String) : HttpRequest :=
  { method := "POST"
    url := u ++ loginPath
    headers := []
    body := some (.obj [("username", .str p.username),
                        ("password", .str p.password)]) }

/-- The stats request of `gatherURL`: GET to `u.String() + statsPostfix`
with `statsReq.Header.Set("Authorization", "Bearer " + string(jwtToken.Jwt))`
— the token is concatenated verbatim, with no encoding applied. -/
def statsRequest (u : String) (token : String) : HttpRequest :=
  { method := "GET"
    url := u ++ statsPath
    headers := [("Authorization", "Bearer " ++ token)]
    body := none }

/-! ## Records and the per-endpoint fetch -/

/-- A value stored in a field map (`map[string]interface{}`), tagged with
the Go static type that the plugin puts there. -/
inductive FieldValue where
  | u32 (n : Nat)
  | u64 (n : Nat)
  | f32 (q : Rat)
deriving DecidableEq, Repr

/-- One `acc.AddFields(name, fields, tags)` call. -/
structure Record where
  name : String
  fields : List (String × FieldValue)
  tags : List (String × String)
deriving DecidableEq, Repr

/-- Outcome of one `gatherURL` call: the records it submitted with a `nil`
return, a non-nil error return, or a Go runtime panic. -/
inductive GatherResult where
  | ok (records : List Record)
  | err (msg : String)
  | panic (msg : String)
deriving DecidableEq, Repr

/-- `systemFields` as built in `gatherURL` (insertion order of the map). -/
def systemFields (s : ArangoSystem) : List (String × FieldValue) :=
  [("majorPageFaults", .u32 s.majorPageFaults),
   ("minorPageFaults", .u32 s.minorPageFaults),
   ("numberOfThreads", .u32 s.numberOfThreads),
   ("residentSize", .f32 s.residentSize),
   ("systemTime", .f32 s.systemTime),
   ("userTime", .f32 s.userTime),
   ("virtualSize", .u64 s.virtualSize)]

/-- `serverFields` as built in `gatherURL`. -/
def serverFields (s : ArangoServer) : List (String × FieldValue) :=
  [("physicalMemory", .u64 s.physicalMemory),
   ("uptime", .f32 s.uptime)]

/-- `clientFields` as built in `gatherURL`: positions 0–5 of
`stats.Client.RequestTime.Counts` are indexed. When the slice has fewer
than 6 elements this indexing is out of bounds — Go panics with
`index out of range` — hence the `Option`: `none` is the panic case. -/
def clientFields (rt : ArangoRequestTime) : Option (List (String × FieldValue)) :=
  if h : 6 ≤ rt.counts.length then
    some [("req_0.01", .u32 (rt.counts.get ⟨0, by omega⟩)),
          ("req_0.05", .u32 (rt.counts.get ⟨1, by omega⟩)),
          ("req_0.1", .u32 (rt.counts.get ⟨2, by omega⟩)),
          ("req_0.2", .u32 (rt.counts.get ⟨3, by omega⟩)),
          ("req_0.5", .u32 (rt.counts.get ⟨4, by omega⟩)),
          ("req_1", .u32 (rt.counts.get ⟨5, by omega⟩)),
          ("count", .u32 rt.count),
          ("sum", .f32 rt.sum)]
  else none

/-- The tail of `gatherURL` after a successful stats decode: build the tag
map and the three field maps (panicking inside `clientFields` when the
bucket slice is short) and submit the three records. -/
def emitRecords (stats : ArangoStats) (u : String) : GatherResult :=
  match clientFields stats.client.requestTime with
  | none => .panic "runtime error: index out of range"
  | some cf =>
      .ok [⟨"arangodb_system", systemFields stats.system, [("url", u)]⟩,
           ⟨"arangodb_server", serverFields stats.server, [("url", u)]⟩,
           ⟨"arangodb_client", cf, [("url", u)]⟩]

/-- The stats leg of `gatherURL`, given the result of
`p.client.Do(statsReq)`.

The source discards the error of this `Do` call
(`statsResponse, _ := p.client.Do(statsReq)`) and instead tests the stale
`err` left over from the login leg, which is necessarily `nil` here; so on
a transport failure `statsResponse` is the nil pointer and the very next
line, `defer statsResponse.Body.Close()`, dereferences it — a runtime
panic, not an error return. -/
def statsLeg (r : Except String HttpResponse) (u : String) : GatherResult :=
  match r with
  | .error _ => .panic "runtime error: invalid memory address or nil pointer dereference"
  | .ok resp =>
      match resp.read with
      | .error e => .err ("error reading stats body: " ++ e)
      | .ok b =>
          match unmarshalStats b with
          | .error e => .err e
          | .ok stats => emitRecords stats u

/-- `func (p *ArangoDB) gatherURL(u url.URL, acc telegraf.Accumulator) error`.

`u` is the parsed URL in its `u.String()` form. The records a run submits
are collected in the `ok` outcome; error returns carry the message built
with `fmt.Errorf`. -/
def gatherURL (p : ArangoDB) (client : HttpClient) (u : String) : GatherResult :=
  match client (loginRequest p u) with
  | .error e => .err ("error making HTTP Login request to " ++ u ++ ": " ++ e)
  | .ok resp =>
      match resp.read with
      | .error e => .err ("error reading token body: " ++ e)
      | .ok b =>
          match unmarshalLogin b with
          | .error e => .err e
          | .ok jwtToken => statsLeg (client (statsRequest u jwtToken.jwt)) u

/-! ## The fan-out collector -/

/-- The environment `Gather` runs against: `url.Parse` from `net/url`
(external to the plugin; `some s` is the parsed URL in its `String()`
form, `none` a parse error that the plugin logs and skips) and the HTTP
client built by `createHttpClient`. -/
structure GatherEnv where
  parse : String → Option String
  client : HttpClient

/-- `allURLs` as built by the loop in `Gather`: parse every configured URL
string, skipping (with a logged warning) the ones that fail to parse. -/
def allURLs (p : ArangoDB) (env : GatherEnv) : List String :=
  p.urls.filterMap env.parse

/-- The number of goroutines `Gather` launches: one `wg.Add(1)`/`go` pair
per element of `allURLs`. -/
def tasksLaunched (p : ArangoDB) (env : GatherEnv) : Nat :=
  (allURLs p env).length

/-- Outcome of one `Gather` cycle. `done records errors` means `Gather`
returned `nil` after `wg.Wait()`, having submitted `records` to the
accumulator and reported `errors` through `acc.AddError` (the accumulator
ignores a `nil` error argument, so successful tasks report nothing);
`panicked` means some per-endpoint goroutine panicked, killing the
process before the cycle could complete. -/
inductive CycleResult where
  | done (records : List Record) (errors : List String)
  | panicked (msg : String)
deriving DecidableEq, Repr

/-- Run the per-endpoint tasks over `urls` (one admissible linearization
of the concurrent fan-out), accumulating submitted records and reported
errors. -/
def runTasks (p : ArangoDB) (client : HttpClient) : List String → CycleResult
  | [] => .done [] []
  | u :: rest =>
      match gatherURL p client u with
      | .ok recs =>
          match runTasks p client rest with
          | .done rs es => .done (recs ++ rs) es
          | .panicked m => .panicked m
      | .err e =>
          match runTasks p client rest with
          | .done rs es => .done rs (e :: es)
          | .panicked m => .panicked m
      | .panic m => .panicked m

/-- `func (p *ArangoDB) Gather(acc telegraf.Accumulator) error`:
`createHttpClient` cannot fail, so the only return path is the `nil`
after `wg.Wait()`. -/
def Gather (p : ArangoDB) (env : GatherEnv) : CycleResult :=
  runTasks p env.client (allURLs p env)

/-! ## Concrete fixtures used by witnesses and counterexamples -/

/-- Is the outcome a runtime panic? -/
def GatherResult.isPanic : GatherResult → Bool
  | .panic _ => true
  | _ => false

/-- The per-endpoint errors of a cycle, collected endpoint by endpoint. -/
def taskErrors (p : ArangoDB) (client : HttpClient) (us : List String) :
    List String :=
  us.filterMap fun u =>
    match gatherURL p client u with
    | .err e => some e
    | _ => none

/-- The records of a cycle, collected endpoint by endpoint: each endpoint
whose task returns `nil` contributes exactly its submitted records, an
endpoint whose task fails contributes none. -/
def taskRecords (p : ArangoDB) (client : HttpClient) (us : List String) :
    List Record :=
  us.flatMap fun u =>
    match gatherURL p client u with
    | .ok r => r
    | _ => []

/-- A demo configuration. -/
def demoP : ArangoDB := ⟨["http://a"], "root", "root"⟩

/-- A demo statistics payload (the spec's §8 example). -/
def demoStatsJson : Json :=
  .obj [("system", .obj [("majorPageFaults", .num 5)]),
        ("server", .obj [("physicalMemory", .num 1024), ("uptime", .num 3.5)]),
        ("client", .obj [("requestTime", .obj
          [("requestTime", .num 10),
           ("counts", .arr [.num 1, .num 2, .num 3, .num 4, .num 5, .num 6]),
           ("sum", .num 7.2)])])]

/-- A demo server: answers login and stats on `http://a`, refuses every
other connection. -/
def demoClient : HttpClient := fun r =>
  if r.url = "http://a" ++ loginPath then
    .ok ⟨200, .ok (some (.obj [("jwt", .str "tok")]))⟩
  else if r.url = "http://a" ++ statsPath then
    .ok ⟨200, .ok (some demoStatsJson)⟩
  else .error "connection refused"

/-- The records `gatherURL` submits against `demoClient` for `http://a`. -/
def demoRecords : List Record :=
  [⟨"arangodb_system",
    [("majorPageFaults", .u32 5), ("minorPageFaults", .u32 0),
     ("numberOfThreads", .u32 0), ("residentSize", .f32 0),
     ("systemTime", .f32 0), ("userTime", .f32 0), ("virtualSize", .u64 0)],
    [("url", "http://a")]⟩,
   ⟨"arangodb_server",
    [("physicalMemory", .u64 1024), ("uptime", .f32 3.5)],
    [("url", "http://a")]⟩,
   ⟨"arangodb_client",
    [("req_0.01", .u32 1), ("req_0.05", .u32 2), ("req_0.1", .u32 3),
     ("req_0.2", .u32 4), ("req_0.5", .u32 5), ("req_1", .u32 6),
     ("count", .u32 10), ("sum", .f32 7.2)],
    [("url", "http://a")]⟩]

/-- A server whose login succeeds but whose stats endpoint is unreachable:
the stats `client.Do` returns a transport error. -/
def c1Client : HttpClient := fun r =>
  if r.url = "http://db:8529" ++ loginPath then
    .ok ⟨200, .ok (some (.obj [("jwt", .str "t")]))⟩
  else .error "dial tcp 127.0.0.1:8529: connect: connection refused"

/-- Configuration pointing at the `c1Client` server. -/
def c1P : ArangoDB := ⟨["http://db:8529"], "root", "root"⟩

/-- A server whose stats payload has no `client` section, so the decoded
bucket-count slice is the empty (nil) slice. -/
def shortClient : HttpClient := fun r =>
  if r.url = "http://a" ++ loginPath then
    .ok ⟨200, .ok (some (.obj [("jwt", .str "t")]))⟩
  else if r.url = "http://a" ++ statsPath then
    .ok ⟨200, .ok (some (.obj []))⟩
  else .error "connection refused"

/-- A server that answers with HTTP 503 on both legs but with decodable
bodies. -/
def status503Client : HttpClient := fun r =>
  if r.url = "http://a" ++ loginPath then
    .ok ⟨503, .ok (some (.obj [("jwt", .str "tok")]))⟩
  else if r.url = "http://a" ++ statsPath then
    .ok ⟨503, .ok (some demoStatsJson)⟩
  else .error "connection refused"

/-- A demo `url.Parse`: rejects exactly the string `"::bad::"`. -/
def demoParse (s : String) : Option String :=
  if s = "::bad::" then none else some s

/-! ## Helper lemmas -/

/-- Inversion for a successful `gatherURL` run: the records are exactly the
three built by `emitRecords`, tagged with the endpoint's URL. -/
theorem gatherURL_ok_shape {p : ArangoDB} {client : HttpClient} {u : String}
    {recs : List Record} (h : gatherURL p client u = .ok recs) :
    ∃ stats : ArangoStats, ∃ cf,
      clientFields stats.client.requestTime = some cf ∧
      recs = [⟨"arangodb_system", systemFields stats.system, [("url", u)]⟩,
              ⟨"arangodb_server", serverFields stats.server, [("url", u)]⟩,
              ⟨"arangodb_client", cf, [("url", u)]⟩] := by
  unfold gatherURL at h
  split at h
  · simp at h
  · split at h
    · simp at h
    · split at h
      · simp at h
      · unfold statsLeg at h
        split at h
        · simp at h
        · split at h
          · simp at h
          · split at h
            · simp at h
            · rename_i stats _
              unfold emitRecords at h
              split at h
              · simp at h
              · rename_i cf hcf
                injection h with h
                exact ⟨stats, cf, hcf, h.symm⟩

/-- A cycle none of whose tasks panics runs every task, submits exactly
the successful endpoints' records and reports exactly the per-endpoint
errors. -/
theorem runTasks_no_panic (p : ArangoDB) (client : HttpClient)
    (us : List String)
    (hnp : ∀ u ∈ us, (gatherURL p client u).isPanic = false) :
    runTasks p client us =
      .done (taskRecords p client us) (taskErrors p client us) := by
  induction us with
  | nil => rfl
  | cons u rest ih =>
      have hrs := ih fun v hv => hnp v (List.mem_cons_of_mem u hv)
      cases hgu : gatherURL p client u with
      | ok recs =>
          simp [runTasks, hgu, hrs, taskErrors, taskRecords,
            List.filterMap_cons, List.flatMap_cons]
      | err e =>
          simp [runTasks, hgu, hrs, taskErrors, taskRecords,
            List.filterMap_cons, List.flatMap_cons]
      | panic m =>
          have := hnp u (List.mem_cons_self u rest)
          rw [hgu] at this
          simp [GatherResult.isPanic] at this

/-! ## Claims -/

/-- C1: the claim says a transport-level failure of the stats GET makes the
fetch return a connectivity failure naming the endpoint. In the source the
error of `p.client.Do(statsReq)` is discarded (`statsResponse, _ := ...`)
and the stale login-leg `err` — necessarily nil here — is tested instead,
so the connectivity-error return is dead code and
`defer statsResponse.Body.Close()` dereferences the nil response: the task
panics instead of returning an error. -/
theorem c1_stats_transport_panics :
    gatherURL c1P c1Client "http://db:8529" =
      .panic "runtime error: invalid memory address or nil pointer dereference" ∧
    ∀ e, gatherURL c1P c1Client "http://db:8529" ≠ .err e :=
  ⟨rfl, fun _ h => GatherResult.noConfusion h⟩

/-- C2 counterexample: with a single endpoint whose (successfully fetched)
stats payload has no bucket-count array the per-endpoint task panics with
an index-out-of-range, the process dies, and `Gather` neither returns
`nil` nor reports the failure through `acc.AddError` — refuting the claim
for this combination of per-endpoint outcomes. -/
theorem c2_counterexample :
    Gather demoP ⟨some, shortClient⟩ =
      .panicked "runtime error: index out of range" ∧
    ∀ recs errs, Gather demoP ⟨some, shortClient⟩ ≠ .done recs errs :=
  ⟨rfl, fun _ _ h => CycleResult.noConfusion h⟩

/-- C2 (amended): for every configuration and every combination of
per-endpoint outcomes in which no task panics, `Gather` runs every
launched task to completion, returns `nil` (never a cycle-level error),
and each per-endpoint error is reported individually through
`acc.AddError`. -/
theorem c2_cycle_completes (p : ArangoDB) (env : GatherEnv)
    (hnp : ∀ u ∈ allURLs p env, (gatherURL p env.client u).isPanic = false) :
    ∃ recs, Gather p env =
      .done recs (taskErrors p env.client (allURLs p env)) :=
  ⟨taskRecords p env.client (allURLs p env),
   runTasks_no_panic p env.client (allURLs p env) hnp⟩

/-- Two-endpoint demo configuration: `http://a` succeeds against
`demoClient`, `http://b` fails its login with a transport error. -/
def demoAB : ArangoDB := ⟨["http://a", "http://b"], "root", "root"⟩

/-- Witness for `c2_cycle_completes` at a cycle mixing one success and one
failure. -/
theorem c2_cycle_completes_witness :
    ∃ recs, Gather demoAB ⟨some, demoClient⟩ =
      .done recs (taskErrors demoAB demoClient (allURLs demoAB ⟨some, demoClient⟩)) :=
  c2_cycle_completes demoAB ⟨some, demoClient⟩ (by decide)

/-- The decoded form of `demoStatsJson`. -/
def demoStats : ArangoStats :=
  ⟨⟨⟨10, [1, 2, 3, 4, 5, 6], 7.2⟩⟩, ⟨1024, 3.5⟩, ⟨5, 0, 0, 0, 0, 0, 0⟩⟩

/-- C3: the Normalizer indexes positions 0 through 5 of the bucket-count
slice; when the slice has at least 6 elements every index is in bounds
and the records are built, and when it has fewer than 6 — including the
empty slice decoded from a payload with no `counts` field — the
positional indexing is out of bounds (a Go runtime panic). -/
theorem c3_bucket_bounds (stats : ArangoStats) (u : String) :
    (6 ≤ stats.client.requestTime.counts.length →
      (∀ i, i < 6 → i < stats.client.requestTime.counts.length) ∧
      ∃ recs, emitRecords stats u = .ok recs) ∧
    (stats.client.requestTime.counts.length < 6 →
      clientFields stats.client.requestTime = none ∧
      emitRecords stats u = .panic "runtime error: index out of range") ∧
    unmarshalStats (some (.obj [])) = .ok zeroStats ∧
    zeroStats.client.requestTime.counts = [] := by
  refine ⟨?_, ?_, rfl, rfl⟩
  · intro h6
    refine ⟨fun i hi => by omega, ?_⟩
    unfold emitRecords clientFields
    rw [dif_pos h6]
    exact ⟨_, rfl⟩
  · intro hlt
    have hcf : clientFields stats.client.requestTime = none := by
      unfold clientFields
      rw [dif_neg (by omega)]
    refine ⟨hcf, ?_⟩
    unfold emitRecords
    rw [hcf]

/-- Witness for `c3_bucket_bounds`: the empty slice panics, six buckets
succeed. -/
theorem c3_bucket_bounds_witness :
    (clientFields zeroStats.client.requestTime = none ∧
     emitRecords zeroStats "http://a" = .panic "runtime error: index out of range") ∧
    ∃ recs, emitRecords demoStats "http://a" = .ok recs :=
  ⟨(c3_bucket_bounds zeroStats "http://a").2.1 (by decide),
   ((c3_bucket_bounds demoStats "http://a").1 (by decide)).2⟩

/-- C4: every successful `gatherURL` run submits exactly three records,
named `arangodb_system`, `arangodb_server` and `arangodb_client`, all
carrying the single tag `url` mapped to the endpoint's URL string. -/
theorem c4_success_three_records (p : ArangoDB) (client : HttpClient)
    (u : String) (recs : List Record)
    (h : gatherURL p client u = .ok recs) :
    recs.length = 3 ∧
    recs.map Record.name =
      ["arangodb_system", "arangodb_server", "arangodb_client"] ∧
    ∀ r ∈ recs, r.tags = [("url", u)] := by
  obtain ⟨stats, cf, -, rfl⟩ := gatherURL_ok_shape h
  refine ⟨rfl, rfl, ?_⟩
  intro r hr
  simp only [List.mem_cons, List.not_mem_nil, or_false] at hr
  rcases hr with rfl | rfl | rfl <;> rfl

/-- Witness for `c4_success_three_records` against the demo server. -/
theorem c4_success_three_records_witness :
    demoRecords.length = 3 ∧
    demoRecords.map Record.name =
      ["arangodb_system", "arangodb_server", "arangodb_client"] ∧
    ∀ r ∈ demoRecords, r.tags = [("url", "http://a")] :=
  c4_success_three_records demoP demoClient "http://a" demoRecords rfl

/-- A pair of servers: `http://a` fully succeeds, `http://b` logs in but
its stats endpoint is unreachable (the stats `Do` returns a transport
error). -/
def statsDownClient : HttpClient := fun r =>
  if r.url = "http://a" ++ loginPath then
    .ok ⟨200, .ok (some (.obj [("jwt", .str "tok")]))⟩
  else if r.url = "http://a" ++ statsPath then
    .ok ⟨200, .ok (some demoStatsJson)⟩
  else if r.url = "http://b" ++ loginPath then
    .ok ⟨200, .ok (some (.obj [("jwt", .str "tok")]))⟩
  else .error "dial tcp: connection refused"

/-- C5 counterexample: the claim covers connectivity failures at the stats
step, but there the task does not fail with an error — it panics (see C1)
— and the panic kills the whole process. In a cycle where `http://a`
fully succeeds and `http://b` fails its stats GET at the transport level,
the cycle ends `panicked`, never `done`: `http://a`'s three records are
not delivered and no error for `http://b` is reported, refuting the claim
on a case inside its stated scope. -/
theorem c5_counterexample :
    gatherURL demoAB statsDownClient "http://a" = .ok demoRecords ∧
    gatherURL demoAB statsDownClient "http://b" =
      .panic "runtime error: invalid memory address or nil pointer dereference" ∧
    Gather demoAB ⟨some, statsDownClient⟩ =
      .panicked "runtime error: invalid memory address or nil pointer dereference" ∧
    ∀ recs errs, Gather demoAB ⟨some, statsDownClient⟩ ≠ .done recs errs :=
  ⟨rfl, rfl, rfl, fun _ _ h => CycleResult.noConfusion h⟩

/-- C5 (amended): in a cycle none of whose tasks panics (a stats-step
connectivity failure panics instead of erroring and loses the whole
cycle, see C1), every endpoint whose task fails with an error — login
transport failure, body-read failure, or decode failure at either step —
has zero records submitted to the sink and its error reported, while the
cycle's emitted records are exactly those of the endpoints that
succeeded: each successful endpoint's exactly-three records, every
emitted record tagged with its own endpoint's URL and none with the
failing endpoint's. -/
theorem c5_failure_isolation (p : ArangoDB) (env : GatherEnv)
    (hnp : ∀ u ∈ allURLs p env, (gatherURL p env.client u).isPanic = false)
    (a b : String) (ra : List Record) (eb : String)
    (hamem : a ∈ allURLs p env) (hbmem : b ∈ allURLs p env)
    (ha : gatherURL p env.client a = .ok ra)
    (hb : gatherURL p env.client b = .err eb) :
    Gather p env =
      .done (taskRecords p env.client (allURLs p env))
            (taskErrors p env.client (allURLs p env)) ∧
    eb ∈ taskErrors p env.client (allURLs p env) ∧
    ra.length = 3 ∧
    (∀ r ∈ ra, r.tags = [("url", a)]) ∧
    (∀ r ∈ ra, r ∈ taskRecords p env.client (allURLs p env)) ∧
    (∀ r ∈ taskRecords p env.client (allURLs p env), ∃ u ∈ allURLs p env,
      ∃ ru, gatherURL p env.client u = .ok ru ∧ r ∈ ru ∧
        r.tags = [("url", u)]) ∧
    (∀ r ∈ taskRecords p env.client (allURLs p env), r.tags ≠ [("url", b)]) ∧
    (∀ u ∈ allURLs p env, ∀ ru, gatherURL p env.client u = .ok ru →
      ru.length = 3) := by
  have hok3 : ∀ u (ru : List Record), gatherURL p env.client u = .ok ru →
      ru.length = 3 ∧ ∀ r ∈ ru, r.tags = [("url", u)] := by
    intro u ru hgu
    obtain ⟨stats, cf, -, rfl⟩ := gatherURL_ok_shape hgu
    refine ⟨rfl, ?_⟩
    intro r hr
    simp only [List.mem_cons, List.not_mem_nil, or_false] at hr
    rcases hr with rfl | rfl | rfl <;> rfl
  have horigin : ∀ r ∈ taskRecords p env.client (allURLs p env),
      ∃ u ∈ allURLs p env, ∃ ru, gatherURL p env.client u = .ok ru ∧
        r ∈ ru ∧ r.tags = [("url", u)] := by
    intro r hr
    obtain ⟨u, hu, hru⟩ := List.mem_flatMap.mp hr
    cases hgu : gatherURL p env.client u with
    | ok ru =>
        rw [hgu] at hru
        exact ⟨u, hu, ru, hgu, hru, (hok3 u ru hgu).2 r hru⟩
    | err e =>
        rw [hgu] at hru
        exact absurd hru (List.not_mem_nil r)
    | panic m =>
        rw [hgu] at hru
        exact absurd hru (List.not_mem_nil r)
  refine ⟨runTasks_no_panic p env.client (allURLs p env) hnp,
    List.mem_filterMap.mpr ⟨b, hbmem, by rw [hb]⟩,
    (hok3 a ra ha).1, (hok3 a ra ha).2, ?_, horigin, ?_,
    fun u _ ru hgu => (hok3 u ru hgu).1⟩
  · intro r hr
    refine List.mem_flatMap.mpr ⟨a, hamem, ?_⟩
    rw [ha]
    exact hr
  · intro r hr htag
    obtain ⟨u, -, ru, hgu, -, htags⟩ := horigin r hr
    rw [htag] at htags
    injection htags with h1 _
    injection h1 with _ h2
    rw [← h2] at hgu
    rw [hb] at hgu
    exact GatherResult.noConfusion hgu

/-- Witness for `c5_failure_isolation`: a two-endpoint cycle where
`http://a` succeeds and `http://b`'s login is refused. -/
theorem c5_failure_isolation_witness :
    Gather demoAB ⟨some, demoClient⟩ =
      .done (taskRecords demoAB demoClient (allURLs demoAB ⟨some, demoClient⟩))
            (taskErrors demoAB demoClient (allURLs demoAB ⟨some, demoClient⟩)) ∧
    "error making HTTP Login request to http://b: connection refused" ∈
      taskErrors demoAB demoClient (allURLs demoAB ⟨some, demoClient⟩) ∧
    demoRecords.length = 3 ∧
    (∀ r ∈ demoRecords, r.tags = [("url", "http://a")]) ∧
    (∀ r ∈ demoRecords,
      r ∈ taskRecords demoAB demoClient (allURLs demoAB ⟨some, demoClient⟩)) ∧
    (∀ r ∈ taskRecords demoAB demoClient (allURLs demoAB ⟨some, demoClient⟩),
      ∃ u ∈ allURLs demoAB ⟨some, demoClient⟩, ∃ ru,
        gatherURL demoAB demoClient u = .ok ru ∧ r ∈ ru ∧
        r.tags = [("url", u)]) ∧
    (∀ r ∈ taskRecords demoAB demoClient (allURLs demoAB ⟨some, demoClient⟩),
      r.tags ≠ [("url", "http://b")]) ∧
    (∀ u ∈ allURLs demoAB ⟨some, demoClient⟩, ∀ ru,
      gatherURL demoAB demoClient u = .ok ru → ru.length = 3) :=
  c5_failure_isolation demoAB ⟨some, demoClient⟩ (by decide)
    "http://a" "http://b" demoRecords
    "error making HTTP Login request to http://b: connection refused"
    (by decide) (by decide) rfl rfl

/-- `gatherURL` reads only the credentials of the configuration, never its
URL list. -/
theorem gatherURL_urls_irrel (p : ArangoDB) (us' : List String)
    (client : HttpClient) (u : String) :
    gatherURL { p with urls := us' } client u = gatherURL p client u := rfl

/-- `runTasks` reads only the credentials of the configuration. -/
theorem runTasks_urls_irrel (p : ArangoDB) (us' : List String)
    (client : HttpClient) (l : List String) :
    runTasks { p with urls := us' } client l = runTasks p client l := by
  induction l with
  | nil => rfl
  | cons u rest ih => simp only [runTasks, gatherURL_urls_irrel, ih]

/-- The number of parseable URL strings in a list. -/
def parseableCount (parse : String → Option String) (urls : List String) : Nat :=
  urls.countP fun s => (parse s).isSome

/-- C6: `Gather` launches one task per URL that parses successfully — the
task count equals the number of parseable URLs — and a URL string that
fails to parse is skipped without launching a task and without aborting or
altering the dispatch of the remaining endpoints. -/
theorem c6_dispatch (p : ArangoDB) (env : GatherEnv)
    (pre post : List String) (bad : String)
    (hbad : env.parse bad = none) :
    tasksLaunched p env = parseableCount env.parse p.urls ∧
    (p.urls = pre ++ bad :: post →
      allURLs p env = allURLs { p with urls := pre ++ post } env ∧
      Gather p env = Gather { p with urls := pre ++ post } env) := by
  constructor
  · unfold tasksLaunched allURLs parseableCount
    induction p.urls with
    | nil => rfl
    | cons x xs ih =>
        cases hfx : env.parse x <;>
          simp [List.filterMap_cons, hfx, List.countP_cons, ih]
  · intro hsplit
    have hall : allURLs p env = allURLs { p with urls := pre ++ post } env := by
      unfold allURLs
      simp [hsplit, List.filterMap_append, List.filterMap_cons, hbad]
    refine ⟨hall, ?_⟩
    unfold Gather
    rw [hall]
    exact (runTasks_urls_irrel p (pre ++ post) env.client _).symm

/-- Witness for `c6_dispatch`: an unparsable string between two valid
endpoints is dropped and the remaining endpoints still run. -/
theorem c6_dispatch_witness :
    tasksLaunched ⟨["http://a", "::bad::", "http://b"], "root", "root"⟩
        ⟨demoParse, demoClient⟩ =
      parseableCount demoParse ["http://a", "::bad::", "http://b"] ∧
    (["http://a", "::bad::", "http://b"] =
        ["http://a"] ++ "::bad::" :: ["http://b"] →
      allURLs ⟨["http://a", "::bad::", "http://b"], "root", "root"⟩
          ⟨demoParse, demoClient⟩ =
        allURLs ⟨["http://a", "http://b"], "root", "root"⟩
          ⟨demoParse, demoClient⟩ ∧
      Gather ⟨["http://a", "::bad::", "http://b"], "root", "root"⟩
          ⟨demoParse, demoClient⟩ =
        Gather ⟨["http://a", "http://b"], "root", "root"⟩
          ⟨demoParse, demoClient⟩) :=
  c6_dispatch ⟨["http://a", "::bad::", "http://b"], "root", "root"⟩
    ⟨demoParse, demoClient⟩ ["http://a"] ["http://b"] "::bad::" rfl

/-- The payload of the spec's client-normalization example. -/
def examplePayload : Json :=
  .obj [("client", .obj [("requestTime", .obj
    [("requestTime", .num 10),
     ("counts", .arr [.num 1, .num 2, .num 3, .num 4, .num 5, .num 6]),
     ("sum", .num 7.2)])])]

/-- The stats struct decoded from `examplePayload`. -/
def exampleStats : ArangoStats :=
  ⟨⟨⟨10, [1, 2, 3, 4, 5, 6], 7.2⟩⟩, ⟨0, 0⟩, zeroSystem⟩

/-- C7: the six `req_*` fields are mapped positionally from indices 0–5 of
the bucket-count slice, `count` from the request count and `sum` from the
total; on the example payload the `arangodb_client` fields come out as
`req_0.01:1, req_0.05:2, req_0.1:3, req_0.2:4, req_0.5:5, req_1:6,
count:10, sum:7.2`. -/
theorem c7_client_fields :
    (∀ rt : ArangoRequestTime, ∀ h6 : 6 ≤ rt.counts.length,
      clientFields rt =
        some [("req_0.01", .u32 (rt.counts.get ⟨0, by omega⟩)),
              ("req_0.05", .u32 (rt.counts.get ⟨1, by omega⟩)),
              ("req_0.1", .u32 (rt.counts.get ⟨2, by omega⟩)),
              ("req_0.2", .u32 (rt.counts.get ⟨3, by omega⟩)),
              ("req_0.5", .u32 (rt.counts.get ⟨4, by omega⟩)),
              ("req_1", .u32 (rt.counts.get ⟨5, by omega⟩)),
              ("count", .u32 rt.count),
              ("sum", .f32 rt.sum)]) ∧
    decodeStatsJson examplePayload = .ok exampleStats ∧
    clientFields exampleStats.client.requestTime =
      some [("req_0.01", .u32 1), ("req_0.05", .u32 2), ("req_0.1", .u32 3),
            ("req_0.2", .u32 4), ("req_0.5", .u32 5), ("req_1", .u32 6),
            ("count", .u32 10), ("sum", .f32 7.2)] := by
  refine ⟨?_, rfl, rfl⟩
  intro rt h6
  unfold clientFields
  rw [dif_pos h6]

/-- Witness for `c7_client_fields` at the example bucket counts. -/
theorem c7_client_fields_witness :
    clientFields ⟨10, [1, 2, 3, 4, 5, 6], 7.2⟩ =
      some [("req_0.01", .u32 1), ("req_0.05", .u32 2), ("req_0.1", .u32 3),
            ("req_0.2", .u32 4), ("req_0.5", .u32 5), ("req_1", .u32 6),
            ("count", .u32 10), ("sum", .f32 7.2)] :=
  c7_client_fields.1 ⟨10, [1, 2, 3, 4, 5, 6], 7.2⟩ (by decide)

/-- C8: whatever bearer token the login exchange yields — special
characters included — the statistics GET carries the header
`Authorization: Bearer <token>` with the token concatenated verbatim, and
the fetch proceeds by handing exactly that request to the client. -/
theorem c8_bearer_header (p : ArangoDB) (client : HttpClient) (u tok : String)
    (status : Nat) (b : JsonBody)
    (hdo : client (loginRequest p u) = .ok ⟨status, .ok b⟩)
    (hjwt : unmarshalLogin b = .ok ⟨tok⟩) :
    (statsRequest u tok).headers = [("Authorization", "Bearer " ++ tok)] ∧
    gatherURL p client u = statsLeg (client (statsRequest u tok)) u := by
  refine ⟨rfl, ?_⟩
  simp only [gatherURL, hdo, hjwt]

/-- A server whose token contains special characters. -/
def oddTokenClient : HttpClient := fun r =>
  if r.url = "http://a" ++ loginPath then
    .ok ⟨200, .ok (some (.obj [("jwt", .str "a b&%\"/🙂")]))⟩
  else .error "connection refused"

/-- Witness for `c8_bearer_header` with a token full of special
characters. -/
theorem c8_bearer_header_witness :
    (statsRequest "http://a" "a b&%\"/🙂").headers =
      [("Authorization", "Bearer " ++ "a b&%\"/🙂")] ∧
    gatherURL demoP oddTokenClient "http://a" =
      statsLeg (oddTokenClient (statsRequest "http://a" "a b&%\"/🙂")) "http://a" :=
  c8_bearer_header demoP oddTokenClient "http://a" "a b&%\"/🙂" 200
    (some (.obj [("jwt", .str "a b&%\"/🙂")])) rfl rfl

/-- A server whose login body is valid JSON of the wrong shape. -/
def badBodyClient : HttpClient := fun r =>
  if r.url = "http://a" ++ loginPath then
    .ok ⟨200, .ok (some (.arr []))⟩
  else .error "connection refused"

/-- C9: the login leg never inspects the HTTP status code — any response
whose body decodes as `{jwt: string}` lets the fetch proceed, whatever the
status (4xx/5xx included), and any response whose body fails to decode
makes `gatherURL` return that decode failure. -/
theorem c9_status_ignored (p : ArangoDB) (client : HttpClient) (u : String) :
    (∀ (status : Nat) (b : JsonBody) (tok : LoginResponse),
      client (loginRequest p u) = .ok ⟨status, .ok b⟩ →
      unmarshalLogin b = .ok tok →
      gatherURL p client u = statsLeg (client (statsRequest u tok.jwt)) u) ∧
    (∀ (status : Nat) (b : JsonBody) (e : String),
      client (loginRequest p u) = .ok ⟨status, .ok b⟩ →
      unmarshalLogin b = .error e →
      gatherURL p client u = .err e) := by
  constructor
  · intro status b tok hdo hjwt
    simp only [gatherURL, hdo, hjwt]
  · intro status b e hdo hjwt
    simp only [gatherURL, hdo, hjwt]

/-- Witness for `c9_status_ignored`: a 503 login response with a decodable
body still proceeds to the stats leg; a 200 response with an
un-decodable body is a decode failure. -/
theorem c9_status_ignored_witness :
    gatherURL demoP status503Client "http://a" =
      statsLeg (status503Client (statsRequest "http://a" "tok")) "http://a" ∧
    gatherURL demoP badBodyClient "http://a" =
      .err "json: cannot unmarshal value into Go value of type LoginResponse" :=
  ⟨(c9_status_ignored demoP status503Client "http://a").1 503
      (some (.obj [("jwt", .str "tok")])) ⟨"tok"⟩ rfl rfl,
   (c9_status_ignored demoP badBodyClient "http://a").2 200
      (some (.arr []))
      "json: cannot unmarshal value into Go value of type LoginResponse"
      rfl rfl⟩

/-- An object all of whose `jwt` members (if any) carry the empty string
decodes to the zero-valued `LoginResponse`. -/
theorem decodeLoginMembers_no_jwt (kvs : List (String × Json))
    (h : ∀ kv ∈ kvs, kv.1 = "jwt" → kv.2 = .str "") :
    decodeLoginMembers kvs ⟨""⟩ = .ok ⟨""⟩ := by
  induction kvs with
  | nil => rfl
  | cons kv rest ih =>
      obtain ⟨k, v⟩ := kv
      have hrest := fun kv hkv => h kv (List.mem_cons_of_mem _ hkv)
      by_cases hk : k = "jwt"
      · have hv : v = .str "" := h (k, v) (List.mem_cons_self _ _) hk
        subst hk
        subst hv
        simpa [decodeLoginMembers, setLoginField, decodeStr] using ih hrest
      · simpa [decodeLoginMembers, setLoginField, hk] using ih hrest

/-- C10: a login body that is valid JSON but has no `jwt` key (or maps it
to the empty string) is not a failure: the decoded token is `""`, the
fetch proceeds to the statistics GET, and the Authorization header sent is
exactly `"Bearer "` with nothing after the space. -/
theorem c10_missing_jwt (p : ArangoDB) (client : HttpClient) (u : String)
    (status : Nat) (kvs : List (String × Json))
    (hdo : client (loginRequest p u) = .ok ⟨status, .ok (some (.obj kvs))⟩)
    (hkvs : ∀ kv ∈ kvs, kv.1 = "jwt" → kv.2 = .str "") :
    unmarshalLogin (some (.obj kvs)) = .ok ⟨""⟩ ∧
    gatherURL p client u = statsLeg (client (statsRequest u "")) u ∧
    (statsRequest u "").headers = [("Authorization", "Bearer ")] := by
  have hjwt : unmarshalLogin (some (.obj kvs)) = .ok ⟨""⟩ :=
    decodeLoginMembers_no_jwt kvs hkvs
  refine ⟨hjwt, ?_, rfl⟩
  simp only [gatherURL, hdo, hjwt]

/-- A server whose login body is the empty JSON object. -/
def emptyLoginClient : HttpClient := fun r =>
  if r.url = "http://a" ++ loginPath then
    .ok ⟨200, .ok (some (.obj []))⟩
  else .error "connection refused"

/-- Witness for `c10_missing_jwt` against a login body with no `jwt` key. -/
theorem c10_missing_jwt_witness :
    unmarshalLogin (some (.obj [])) = .ok ⟨""⟩ ∧
    gatherURL demoP emptyLoginClient "http://a" =
      statsLeg (emptyLoginClient (statsRequest "http://a" "")) "http://a" ∧
    (statsRequest "http://a" "").headers = [("Authorization", "Bearer ")] :=
  c10_missing_jwt demoP emptyLoginClient "http://a" 200 [] rfl
    (fun kv hkv => absurd hkv (List.not_mem_nil kv))
